import Mathlib

/-!
Verification of the core of `starfish_mcp` (query-rate governor, query-string
compiler, async poll coordinator) against its specification.

The Python sources are shallowly embedded:
* `RateLimiter` (rate_limiter.py) — timestamps are rationals (Python floats are
  clock readings; the code only compares and subtracts them), the deque becomes
  a `List ℚ` with the oldest element first.  `check_rate_limit` returns the
  admitted flag, the wait time that the error message reports (the message
  itself is a formatted string around this number), and the mutated state;
  `none` models the `IndexError` Python would raise when the deque is indexed
  while empty (only reachable with `max_queries = 0`).
* `build_starfish_query` (tools/query_builder.py) — the argument dict becomes a
  structure of `Option` fields typed as in the tool schema (strings, integers,
  booleans); Python truthiness for a string is non-emptiness, for an integer
  non-zeroness, for a boolean the value itself.
* `StarfishClient.async_query` polling loop (client.py lines 344-403) — each
  poll tick consults the backend, modelled as a function from attempt index to
  a `Tick` (the status response plus the result-fetch behaviour per endpoint).
  Errors carry the four boolean facts the code's string sniffing extracts from
  `str(e)` (`"400" in`, `"not finished yet" in lower`, `"404" in`,
  `"not found" in lower`).
-/

namespace Starfish

/-- State of `RateLimiter` (rate_limiter.py lines 14-25). -/
structure RateLimiter where
  max_queries : Nat
  time_window_seconds : ℚ
  enabled : Bool
  query_timestamps : List ℚ
deriving Repr, DecidableEq

/-- The `while` loop of `check_rate_limit` / `get_status`: pop timestamps from
the front while `now - ts > window`. -/
def evict (now window : ℚ) : List ℚ → List ℚ
  | [] => []
  | t :: ts => if now - t > window then evict now window ts else t :: ts

/-- `RateLimiter.check_rate_limit` (lines 34-80).  Returns
`(allowed, wait_time, new_state)`; `wait_time` is the number interpolated into
the rejection message.  `none` models the `IndexError` raised by
`self._query_timestamps[0]` on an empty deque (possible only when
`max_queries = 0`). -/
def check_rate_limit (now : ℚ) (s : RateLimiter) :
    Option (Bool × Option ℚ × RateLimiter) :=
  if s.enabled = false then some (true, none, s)
  else
    let ts := evict now s.time_window_seconds s.query_timestamps
    if s.max_queries ≤ ts.length then
      match ts with
      | oldest :: _ =>
          some (false, some (s.time_window_seconds - (now - oldest)),
            { s with query_timestamps := ts })
      | [] => none
    else
      some (true, none, { s with query_timestamps := ts ++ [now] })

theorem evict_eq_dropWhile (now window : ℚ) (l : List ℚ) :
    evict now window l = l.dropWhile (fun t => decide (t < now - window)) := by
  induction l with
  | nil => rfl
  | cons t ts ih =>
      simp only [evict, List.dropWhile]
      by_cases h : now - t > window
      · rw [if_pos h, ih]
        have : t < now - window := by linarith
        simp [this]
      · rw [if_neg h]
        have : ¬ t < now - window := by
          intro hc; exact h (by linarith)
        simp [this]

theorem evict_head_not_old (now window : ℚ) (l : List ℚ) (oldest : ℚ)
    (rest : List ℚ) (h : evict now window l = oldest :: rest) :
    ¬ now - oldest > window := by
  induction l with
  | nil => simp [evict] at h
  | cons t ts ih =>
      simp only [evict] at h
      by_cases hc : now - t > window
      · rw [if_pos hc] at h; exact ih h
      · rw [if_neg hc] at h
        obtain ⟨rfl, -⟩ := List.cons.inj h
        exact hc

/-- C1: with rate limiting enabled, `check_rate_limit(now)` first drops from
the front of the timestamp list every timestamp strictly older than
`now - window`; if the remaining count reaches `max_queries` it rejects without
appending `now`, reporting `wait = window - (now - oldest_remaining) ≥ 0`;
otherwise it appends `now` and admits.  Concretely with `max_queries = 2`,
`window = 5`: two calls at `t = 0` admit, a third at `t = 0` rejects with wait
`5`, and a fourth at `t = 5.1` admits. -/
theorem check_rate_limit_sliding_window (s : RateLimiter) (now : ℚ)
    (hen : s.enabled = true) :
    (evict now s.time_window_seconds s.query_timestamps
        = s.query_timestamps.dropWhile
            (fun t => decide (t < now - s.time_window_seconds)))
    ∧ ((evict now s.time_window_seconds s.query_timestamps).length <
          s.max_queries →
        check_rate_limit now s = some (true, none,
          { s with query_timestamps :=
              evict now s.time_window_seconds s.query_timestamps ++ [now] }))
    ∧ (∀ oldest rest,
        evict now s.time_window_seconds s.query_timestamps = oldest :: rest →
        s.max_queries ≤ (oldest :: rest).length →
        check_rate_limit now s = some (false,
            some (s.time_window_seconds - (now - oldest)),
            { s with query_timestamps := oldest :: rest })
          ∧ 0 ≤ s.time_window_seconds - (now - oldest))
    ∧ (let s0 : RateLimiter := ⟨2, 5, true, []⟩
       check_rate_limit 0 s0 = some (true, none, ⟨2, 5, true, [0]⟩)
       ∧ check_rate_limit 0 ⟨2, 5, true, [0]⟩
           = some (true, none, ⟨2, 5, true, [0, 0]⟩)
       ∧ check_rate_limit 0 ⟨2, 5, true, [0, 0]⟩
           = some (false, some 5, ⟨2, 5, true, [0, 0]⟩)
       ∧ check_rate_limit (51/10) ⟨2, 5, true, [0, 0]⟩
           = some (true, none, ⟨2, 5, true, [51/10]⟩)) := by
  refine ⟨evict_eq_dropWhile _ _ _, ?_, ?_, ?_⟩
  · intro hlt
    simp only [check_rate_limit, hen]
    rw [if_neg (by simp), if_neg (by omega)]
  · intro oldest rest hev hge
    constructor
    · simp only [check_rate_limit, hen]
      rw [if_neg (by simp), hev, if_pos (by simpa using hge)]
    · have := evict_head_not_old now s.time_window_seconds s.query_timestamps
        oldest rest hev
      linarith [not_lt.mp this]
  · refine ⟨?_, ?_, ?_, ?_⟩ <;> norm_num [check_rate_limit, evict]

/-- Witness for `check_rate_limit_sliding_window` at a concrete state. -/
theorem check_rate_limit_sliding_window_witness :
    check_rate_limit 0 ⟨2, 5, true, [0, 0]⟩
      = some (false, some 5, ⟨2, 5, true, [0, 0]⟩) := by
  have h := check_rate_limit_sliding_window ⟨2, 5, true, [0, 0]⟩ 0 rfl
  have h3 := h.2.2.1 0 [0] (by norm_num [evict]) (by norm_num)
  simpa using h3.1

/-- The dictionary returned by `RateLimiter.get_status` (lines 92-125).
`queries_remaining` is `Option` because the disabled branch (lines 99-105)
builds a dictionary without that key. -/
structure RateStatus where
  enabled : Bool
  current_queries : Nat
  max_queries : Nat
  time_window_seconds : ℚ
  time_to_reset : ℚ
  queries_remaining : Option ℤ
deriving Repr, DecidableEq

/-- `RateLimiter.get_status` (lines 92-125).  The eviction loop mutates the
deque, so the new state is returned alongside the status dictionary. -/
def get_status (now : ℚ) (s : RateLimiter) : RateStatus × RateLimiter :=
  if s.enabled = false then
    ({ enabled := false, current_queries := 0, max_queries := s.max_queries,
       time_window_seconds := s.time_window_seconds, time_to_reset := 0,
       queries_remaining := none }, s)
  else
    let ts := evict now s.time_window_seconds s.query_timestamps
    let ttr : ℚ :=
      match ts with
      | oldest :: _ => max 0 (s.time_window_seconds - (now - oldest))
      | [] => 0
    ({ enabled := s.enabled, current_queries := ts.length,
       max_queries := s.max_queries,
       time_window_seconds := s.time_window_seconds, time_to_reset := ttr,
       queries_remaining := some (max 0 ((s.max_queries : ℤ) - ts.length)) },
     { s with query_timestamps := ts })

/-- `RateLimiter.reset` (lines 82-90). -/
def reset (s : RateLimiter) : RateLimiter := { s with query_timestamps := [] }

/-- `RateLimiter.update_config` (lines 127-158): each field is assigned only
when the corresponding argument `is not None`. -/
def update_config (mq : Option Nat) (tw : Option ℚ) (en : Option Bool)
    (s : RateLimiter) : RateLimiter :=
  let s1 := match mq with
    | some v => { s with max_queries := v }
    | none => s
  let s2 := match tw with
    | some v => { s1 with time_window_seconds := v }
    | none => s1
  match en with
  | some v => { s2 with enabled := v }
  | none => s2

theorem evict_all_old (now window : ℚ) (l : List ℚ)
    (h : ∀ t ∈ l, t < now - window) : evict now window l = [] := by
  induction l with
  | nil => rfl
  | cons t ts ih =>
      have ht : now - t > window := by
        have := h t (List.mem_cons_self t ts)
        linarith
      simp only [evict, if_pos ht]
      exact ih fun x hx => h x (List.mem_cons_of_mem t hx)

/-- C5 counterexample: the claim says the returned record contains the
remaining-slots field in every state, but the disabled branch of `get_status`
builds its dictionary without the `queries_remaining` key. -/
theorem get_status_disabled_no_remaining :
    (get_status 0 ⟨5, 10, false, []⟩).1.queries_remaining = none := rfl

/-- C5 (amended): with rate limiting enabled, `get_status(now)` performs the
same front-eviction as an admission check, appends nothing, and returns a
record with all of enabled, current count, max, window, remaining slots and
time-to-reset; when disabled it returns a fixed record (count 0,
time-to-reset 0) that omits the remaining-slots field.  After the window has
fully elapsed with no new admissions, `get_status` reports count 0 without an
intervening `check_rate_limit`. -/
theorem get_status_spec (s : RateLimiter) (now : ℚ) :
    (s.enabled = true →
      get_status now s =
        (let ts := s.query_timestamps.dropWhile
            (fun t => decide (t < now - s.time_window_seconds))
         ({ enabled := true, current_queries := ts.length,
            max_queries := s.max_queries,
            time_window_seconds := s.time_window_seconds,
            time_to_reset :=
              (match ts with
               | oldest :: _ => max 0 (s.time_window_seconds - (now - oldest))
               | [] => 0),
            queries_remaining :=
              some (max 0 ((s.max_queries : ℤ) - ts.length)) },
          { s with query_timestamps := ts })))
    ∧ (s.enabled = false →
        get_status now s =
          ({ enabled := false,
             current_queries := 0,
             max_queries := s.max_queries,
             time_window_seconds := s.time_window_seconds,
             time_to_reset := 0,
             queries_remaining := none }, s))
    ∧ (s.enabled = true →
        (∀ t ∈ s.query_timestamps, t < now - s.time_window_seconds) →
        (get_status now s).1.current_queries = 0) := by
  refine ⟨?_, ?_, ?_⟩
  · intro hen
    simp only [get_status, hen, evict_eq_dropWhile]
    rw [if_neg (by decide)]
  · intro hdis
    simp only [get_status, hdis]
    rw [if_pos trivial]
  · intro hen hold
    simp only [get_status, hen, evict_all_old now _ _ hold]
    rw [if_neg (by decide)]
    rfl

/-- Witness for `get_status_spec`: a window that has fully elapsed reads back
as empty. -/
theorem get_status_spec_witness :
    (get_status 100 ⟨2, 5, true, [0, 0]⟩).1.current_queries = 0 := by
  exact (get_status_spec ⟨2, 5, true, [0, 0]⟩ 100).2.2 rfl (by norm_num)

/-- C8: `update_config` overwrites exactly the supplied subset of
configuration fields and never touches the timestamp list; `reset` clears the
timestamp list and nothing else; and with a positive quota, `reset` followed
by `check_rate_limit` admits at any time. -/
theorem update_config_reset_frame (mq : Option Nat) (tw : Option ℚ)
    (en : Option Bool) (s : RateLimiter) (now : ℚ) :
    update_config mq tw en s =
      ⟨mq.getD s.max_queries, tw.getD s.time_window_seconds,
       en.getD s.enabled, s.query_timestamps⟩
    ∧ reset s = ⟨s.max_queries, s.time_window_seconds, s.enabled, []⟩
    ∧ (s.enabled = true → 0 < s.max_queries →
        check_rate_limit now (reset s)
          = some (true, none, { s with query_timestamps := [now] })) := by
  refine ⟨?_, rfl, ?_⟩
  · cases mq <;> cases tw <;> cases en <;> rfl
  · intro hen hpos
    simp only [reset, check_rate_limit, hen, evict]
    rw [if_neg (by decide), if_neg (by simp only [List.length_nil]; omega)]
    simp

/-- Witness for `update_config_reset_frame`: after exhausting a quota of 2,
`reset` followed by an admission check admits even with no elapsed time. -/
theorem update_config_reset_frame_witness :
    check_rate_limit 0 (reset ⟨2, 5, true, [0, 0]⟩)
      = some (true, none, ⟨2, 5, true, [0]⟩) := by
  exact (update_config_reset_frame none none none ⟨2, 5, true, [0, 0]⟩ 0).2.2
    rfl (by norm_num)

/-- The argument dictionary accepted by `build_starfish_query`
(tools/query_builder.py lines 12-43), with the value types declared in
tools/schema.py: strings for patterns/filter expressions, integers for
`uid`/`gid`/`inode`/`depth`/`maxdepth`, booleans for the flags.  `none` is an
absent key (`arguments.get` returning `None`). -/
structure QueryArgs where
  name : Option String := none
  name_regex : Option String := none
  path : Option String := none
  path_regex : Option String := none
  file_type : Option String := none
  ext : Option String := none
  empty : Option Bool := none
  uid : Option Int := none
  gid : Option Int := none
  username : Option String := none
  username_regex : Option String := none
  groupname : Option String := none
  groupname_regex : Option String := none
  inode : Option Int := none
  size : Option String := none
  nlinks : Option String := none
  iname : Option String := none
  iusername : Option String := none
  igroupname : Option String := none
  depth : Option Int := none
  maxdepth : Option Int := none
  perm : Option String := none
  mtime : Option String := none
  ctime : Option String := none
  atime : Option String := none
  search_all : Option Bool := none
  versions : Option Bool := none
  children_only : Option Bool := none
  root_only : Option Bool := none
  tag : Option String := none
  tag_explicit : Option String := none
  zone : Option String := none
deriving Repr, DecidableEq

/-- Python `x.startswith(chr(94))`: the first character is a caret.  Stated on
the character list so that concrete instances evaluate. -/
def startsWithCaret (s : String) : Bool :=
  match s.data with
  | [] => false
  | c :: _ => c = '^'

/-- Python truthiness of a string: it is non-empty. -/
def strTruthy (s : String) : Bool := !s.data.isEmpty

/-- Python `c in s` for a single character. -/
def strHasChar (s : String) (c : Char) : Bool := s.data.contains c

/-- `if not x.startswith(chr(94)): x = chr(94) + x` as used for the regex
fields of `build_starfish_query`. -/
def ensureCaret (s : String) : String :=
  if startsWithCaret s then s else "^" ++ s

/-- The regex-detection characters of query_builder.py line 55 (the two brace
characters are written by code point). -/
def regexChars : List Char :=
  ['(', ')', '[', ']', Char.ofNat 123, Char.ofNat 125, '|', '+', '?']

/-- `if v: parts.append(key + "=" + v)` for a string-typed argument: Python
truthiness of a string is non-emptiness. -/
def strToken (key : String) (v : Option String) : List String :=
  match v with
  | some s => if strTruthy s then [key ++ "=" ++ s] else []
  | none => []

/-- The regex fields: truthiness test, then ensure the leading caret, then
emit `key=pattern`. -/
def regexToken (key : String) (v : Option String) : List String :=
  match v with
  | some s => if strTruthy s then [key ++ "=" ++ ensureCaret s] else []
  | none => []

/-- `if v is not None: parts.append(key + "=" + str(v))` for `uid`, `gid`,
`depth`, `maxdepth`. -/
def intToken (key : String) (v : Option Int) : List String :=
  match v with
  | some n => [key ++ "=" ++ toString n]
  | none => []

/-- `if inode: ...` — integer truthiness, so zero is skipped. -/
def truthyIntToken (key : String) (v : Option Int) : List String :=
  match v with
  | some n => if n = 0 then [] else [key ++ "=" ++ toString n]
  | none => []

/-- Bare flag tokens (`empty`, `search-all`, `versions`, `children-only`,
`root-only`): emitted only for a present true value. -/
def flagToken (word : String) (v : Option Bool) : List String :=
  match v with
  | some b => if b then [word] else []
  | none => []

/-- The `name` heuristic of query_builder.py lines 53-64: a leading caret or
any regex character makes it a regex (caret ensured, `name-re=`); otherwise it
is emitted verbatim as `name=` whether or not it holds glob characters. -/
def namePart (v : Option String) : List String :=
  match v with
  | none => []
  | some n =>
    if strTruthy n then
      if startsWithCaret n || regexChars.any (fun c => strHasChar n c) then
        ["name-re=" ++ ensureCaret n]
      else if strHasChar n '*' || strHasChar n '?' then
        ["name=" ++ n]
      else
        ["name=" ++ n]
    else []

/-- The `query_parts` list of `build_starfish_query`, in the append order of
query_builder.py lines 46-173. -/
def queryParts (a : QueryArgs) : List String :=
  strToken "type" a.file_type
  ++ namePart a.name
  ++ regexToken "name-re" a.name_regex
  ++ strToken "ppath" a.path
  ++ regexToken "ppath-re" a.path_regex
  ++ strToken "ext" a.ext
  ++ flagToken "empty" a.empty
  ++ truthyIntToken "inode" a.inode
  ++ intToken "uid" a.uid
  ++ intToken "gid" a.gid
  ++ strToken "username" a.username
  ++ regexToken "username-re" a.username_regex
  ++ strToken "groupname" a.groupname
  ++ regexToken "groupname-re" a.groupname_regex
  ++ strToken "size" a.size
  ++ strToken "nlinks" a.nlinks
  ++ strToken "iname" a.iname
  ++ strToken "iusername" a.iusername
  ++ strToken "igroupname" a.igroupname
  ++ intToken "depth" a.depth
  ++ intToken "maxdepth" a.maxdepth
  ++ strToken "perm" a.perm
  ++ strToken "mtime" a.mtime
  ++ strToken "ctime" a.ctime
  ++ strToken "atime" a.atime
  ++ flagToken "search-all" a.search_all
  ++ flagToken "versions" a.versions
  ++ flagToken "children-only" a.children_only
  ++ flagToken "root-only" a.root_only
  ++ strToken "tag" a.tag
  ++ strToken "tag-explicit" a.tag_explicit
  ++ strToken "zone" a.zone

/-- `build_starfish_query` (query_builder.py line 175): the parts joined by a
single space. -/
def build_starfish_query (a : QueryArgs) : String :=
  String.intercalate " " (queryParts a)

theorem strTruthy_empty : strTruthy "" = false := rfl

/-- C4: a non-empty `name` containing one of the regex characters, or starting
with a caret, is emitted as `name-re=` with a leading caret ensured (prepended
exactly when missing, never doubled, the pattern otherwise unchanged); every
other non-empty `name` — including glob patterns — is emitted verbatim as
`name=`; the explicit `name_regex` field always gets the caret treatment and
is emitted as `name-re=`; and the two golden examples from the spec hold. -/
theorem name_regex_heuristic (a : QueryArgs) (n : String)
    (hn : a.name = some n) (hne : strTruthy n = true) :
    ((startsWithCaret n || regexChars.any (fun c => strHasChar n c)) = true →
      ("name-re=" ++ ensureCaret n) ∈ queryParts a
      ∧ (startsWithCaret n = true → ensureCaret n = n)
      ∧ (startsWithCaret n = false → ensureCaret n = "^" ++ n))
    ∧ ((startsWithCaret n || regexChars.any (fun c => strHasChar n c)) = false →
        ("name=" ++ n) ∈ queryParts a)
    ∧ (∀ r, a.name_regex = some r → strTruthy r = true →
        ("name-re=" ++ ensureCaret r) ∈ queryParts a)
    ∧ build_starfish_query { name_regex := some ".*\\.pdf$" }
        = "name-re=^.*\\.pdf$"
    ∧ build_starfish_query { name_regex := some "^config.*" }
        = "name-re=^config.*" := by
  refine ⟨?_, ?_, ?_, rfl, rfl⟩
  · intro hcond
    refine ⟨?_, ?_, ?_⟩
    · simp [queryParts, namePart, hn, hne, hcond, List.mem_append]
    · intro hc; simp [ensureCaret, hc]
    · intro hc; simp [ensureCaret, hc]
  · intro hcond
    simp [queryParts, namePart, hn, hne, hcond, List.mem_append]
  · intro r hr hrne
    simp [queryParts, regexToken, hr, hrne, List.mem_append]

/-- Witness for `name_regex_heuristic`: a parenthesis triggers the regex
heuristic with the caret prepended. -/
theorem name_regex_heuristic_witness :
    ("name-re=" ++ ensureCaret "f(1)")
      ∈ queryParts { name := some "f(1)" } := by
  exact ((name_regex_heuristic { name := some "f(1)" } "f(1)" rfl rfl).1
    (by decide)).1

/-- Modelled from the claim's fixed field-priority sequence: type first, then
name/path (`name`, `name_regex`, `path`, `path_regex`), attributes (`ext`,
`empty`, `inode`), ownership (`uid`, `gid`, `username`, `username_regex`,
`groupname`, `groupname_regex`), size/links, depth/maxdepth, permissions,
time (`mtime`, `ctime`, `atime`), option flags, tags, and zone last — a
sequence that omits the case-insensitive fields
`iname`/`iusername`/`igroupname`, which is where it diverges from the
compiler. -/
def claimedOrderParts (a : QueryArgs) : List String :=
  strToken "type" a.file_type
  ++ namePart a.name
  ++ regexToken "name-re" a.name_regex
  ++ strToken "ppath" a.path
  ++ regexToken "ppath-re" a.path_regex
  ++ strToken "ext" a.ext
  ++ flagToken "empty" a.empty
  ++ truthyIntToken "inode" a.inode
  ++ intToken "uid" a.uid
  ++ intToken "gid" a.gid
  ++ strToken "username" a.username
  ++ regexToken "username-re" a.username_regex
  ++ strToken "groupname" a.groupname
  ++ regexToken "groupname-re" a.groupname_regex
  ++ strToken "size" a.size
  ++ strToken "nlinks" a.nlinks
  ++ intToken "depth" a.depth
  ++ intToken "maxdepth" a.maxdepth
  ++ strToken "perm" a.perm
  ++ strToken "mtime" a.mtime
  ++ strToken "ctime" a.ctime
  ++ strToken "atime" a.atime
  ++ flagToken "search-all" a.search_all
  ++ flagToken "versions" a.versions
  ++ flagToken "children-only" a.children_only
  ++ flagToken "root-only" a.root_only
  ++ strToken "tag" a.tag
  ++ strToken "tag-explicit" a.tag_explicit
  ++ strToken "zone" a.zone

/-- C6 counterexample: the claim's priority sequence is not the whole story —
`{iname: "x"}` compiles to `"iname=x"`, but joining the claimed sequence's
tokens for that value yields the empty string, so the compiled string is not
the claimed-order join on every `QueryParameters` value. -/
theorem claimed_order_misses_iname :
    build_starfish_query { iname := some "x" } = "iname=x"
    ∧ String.intercalate " " (claimedOrderParts { iname := some "x" }) = ""
      := by
  exact ⟨rfl, rfl⟩

/-- Modelled from the amended claim's priority sequence: the claimed order
with the case-insensitive tokens (`iname`, `iusername`, `igroupname`)
inserted between size/links and depth/maxdepth, where the compiler emits
them. -/
def amendedOrderParts (a : QueryArgs) : List String :=
  strToken "type" a.file_type
  ++ namePart a.name
  ++ regexToken "name-re" a.name_regex
  ++ strToken "ppath" a.path
  ++ regexToken "ppath-re" a.path_regex
  ++ strToken "ext" a.ext
  ++ flagToken "empty" a.empty
  ++ truthyIntToken "inode" a.inode
  ++ intToken "uid" a.uid
  ++ intToken "gid" a.gid
  ++ strToken "username" a.username
  ++ regexToken "username-re" a.username_regex
  ++ strToken "groupname" a.groupname
  ++ regexToken "groupname-re" a.groupname_regex
  ++ strToken "size" a.size
  ++ strToken "nlinks" a.nlinks
  ++ strToken "iname" a.iname
  ++ strToken "iusername" a.iusername
  ++ strToken "igroupname" a.igroupname
  ++ intToken "depth" a.depth
  ++ intToken "maxdepth" a.maxdepth
  ++ strToken "perm" a.perm
  ++ strToken "mtime" a.mtime
  ++ strToken "ctime" a.ctime
  ++ strToken "atime" a.atime
  ++ flagToken "search-all" a.search_all
  ++ flagToken "versions" a.versions
  ++ flagToken "children-only" a.children_only
  ++ flagToken "root-only" a.root_only
  ++ strToken "tag" a.tag
  ++ strToken "tag-explicit" a.tag_explicit
  ++ strToken "zone" a.zone

/-- C6 (amended): for every `QueryParameters` value, the compiled string is
the emitted tokens joined by single spaces in the fixed priority order that
additionally places the case-insensitive tokens (`iname`, `iusername`,
`igroupname`) between size/links and depth/maxdepth; the empty parameter set
compiles to the empty string.  Determinism is definitional: the compiler is a
pure function of its argument record. -/
theorem build_fixed_order_amended :
    (∀ a : QueryArgs,
      build_starfish_query a = String.intercalate " " (amendedOrderParts a))
    ∧ build_starfish_query {} = "" := by
  exact ⟨fun a => rfl, rfl⟩

/-- C7: `uid`, `gid`, `depth` and `maxdepth` are keyed on presence, not
truthiness: any present value, zero included, is emitted; concretely
`{uid: 0}` compiles to a string containing `uid=0`, and zero depths are
emitted. -/
theorem presence_keyed_int_fields (a : QueryArgs) (n : Int) :
    (a.uid = some n → ("uid=" ++ toString n) ∈ queryParts a)
    ∧ (a.gid = some n → ("gid=" ++ toString n) ∈ queryParts a)
    ∧ (a.depth = some n → ("depth=" ++ toString n) ∈ queryParts a)
    ∧ (a.maxdepth = some n → ("maxdepth=" ++ toString n) ∈ queryParts a)
    ∧ build_starfish_query { uid := some 0 } = "uid=0"
    ∧ build_starfish_query { gid := some 0 } = "gid=0"
    ∧ build_starfish_query { depth := some 0, maxdepth := some 0 }
        = "depth=0 maxdepth=0" := by
  refine ⟨?_, ?_, ?_, ?_, rfl, rfl, rfl⟩ <;>
    · intro h
      simp [queryParts, intToken, h, List.mem_append]

/-- Witness for `presence_keyed_int_fields`: the zero UID token is among the
parts. -/
theorem presence_keyed_int_fields_witness :
    ("uid=" ++ toString (0 : Int)) ∈ queryParts { uid := some 0 } := by
  exact (presence_keyed_int_fields { uid := some 0 } 0).1 rfl

/-- C9: every compiler field other than `uid`/`gid`/`empty`/`depth`/`maxdepth`
is keyed on Python truthiness, so a present-but-falsy value emits nothing:
`inode = 0`, an empty string in any string-typed field, and `false` in any of
the boolean flags `search_all`/`versions`/`children_only`/`root_only` leave
the compiled parts exactly as if the field were absent. -/
theorem truthiness_keyed_fields (a : QueryArgs) :
    (a.inode = some 0 → queryParts a = queryParts { a with inode := none })
    ∧ (a.name = some "" → queryParts a = queryParts { a with name := none })
    ∧ (a.name_regex = some "" →
        queryParts a = queryParts { a with name_regex := none })
    ∧ (a.path = some "" → queryParts a = queryParts { a with path := none })
    ∧ (a.path_regex = some "" →
        queryParts a = queryParts { a with path_regex := none })
    ∧ (a.file_type = some "" →
        queryParts a = queryParts { a with file_type := none })
    ∧ (a.ext = some "" → queryParts a = queryParts { a with ext := none })
    ∧ (a.username = some "" →
        queryParts a = queryParts { a with username := none })
    ∧ (a.username_regex = some "" →
        queryParts a = queryParts { a with username_regex := none })
    ∧ (a.groupname = some "" →
        queryParts a = queryParts { a with groupname := none })
    ∧ (a.groupname_regex = some "" →
        queryParts a = queryParts { a with groupname_regex := none })
    ∧ (a.size = some "" → queryParts a = queryParts { a with size := none })
    ∧ (a.nlinks = some "" →
        queryParts a = queryParts { a with nlinks := none })
    ∧ (a.iname = some "" → queryParts a = queryParts { a with iname := none })
    ∧ (a.iusername = some "" →
        queryParts a = queryParts { a with iusername := none })
    ∧ (a.igroupname = some "" →
        queryParts a = queryParts { a with igroupname := none })
    ∧ (a.perm = some "" → queryParts a = queryParts { a with perm := none })
    ∧ (a.mtime = some "" → queryParts a = queryParts { a with mtime := none })
    ∧ (a.ctime = some "" → queryParts a = queryParts { a with ctime := none })
    ∧ (a.atime = some "" → queryParts a = queryParts { a with atime := none })
    ∧ (a.tag = some "" → queryParts a = queryParts { a with tag := none })
    ∧ (a.tag_explicit = some "" →
        queryParts a = queryParts { a with tag_explicit := none })
    ∧ (a.zone = some "" → queryParts a = queryParts { a with zone := none })
    ∧ (a.search_all = some false →
        queryParts a = queryParts { a with search_all := none })
    ∧ (a.versions = some false →
        queryParts a = queryParts { a with versions := none })
    ∧ (a.children_only = some false →
        queryParts a = queryParts { a with children_only := none })
    ∧ (a.root_only = some false →
        queryParts a = queryParts { a with root_only := none })
      := by
  cases a
  refine ⟨?_, ?_, ?_, ?_, ?_, ?_, ?_, ?_, ?_, ?_, ?_, ?_, ?_, ?_, ?_, ?_,
    ?_, ?_, ?_, ?_, ?_, ?_, ?_, ?_, ?_, ?_, ?_⟩ <;>
    · intro h
      subst h
      simp only [queryParts, truthyIntToken, strToken, regexToken, namePart,
        flagToken, strTruthy_empty, Bool.false_eq_true, if_false, if_true,
        List.nil_append, List.append_nil, List.append_assoc]

/-- Witness for `truthiness_keyed_fields`: a zero inode contributes nothing. -/
theorem truthiness_keyed_fields_witness :
    queryParts { inode := some 0 } = queryParts ({} : QueryArgs) := by
  have h := (truthiness_keyed_fields { inode := some 0 }).1 rfl
  simpa using h

/-- The status payload of `GET /async/query/{query_id}`:
`status_response.get("is_done", False)` and `status_response.get("location",
default)` make both keys optional (client.py lines 355-360). -/
structure SfStatus where
  is_done : Option Bool
  location : Option String
deriving Repr, DecidableEq

/-- A `StarfishError` as the polling loop observes it: the four boolean facts
its string sniffing extracts from `str(e)` — `"400" in str(e)`,
`"not finished yet" in str(e).lower()`, `"404" in str(e)`,
`"not found" in str(e).lower()` — plus an identifying message. -/
structure SfErr where
  has400 : Bool
  notFinishedYet : Bool
  has404 : Bool
  notFound : Bool
  msg : String
deriving Repr, DecidableEq

/-- The result-fetch retry test of client.py lines 366 and 375:
`"400" in str(e) or "not finished yet" in str(e).lower()`. -/
def resultNotReady (e : SfErr) : Bool := e.has400 || e.notFinishedYet

/-- The status-check retry test of client.py lines 392-393: `"not found"`,
`"404"`, `"400"` or `"not finished yet"`. -/
def transientPoll (e : SfErr) : Bool :=
  e.notFound || e.has404 || e.has400 || e.notFinishedYet

/-- A result-endpoint body: either a JSON array (entries kept opaque) or some
other shape (`isinstance(result_response, list)` fails, client.py line 380). -/
inductive ResultResp where
  | entries (es : List String)
  | notList (payload : String)
deriving Repr, DecidableEq

/-- One poll tick's view of the backend: the status response for
`GET /async/query/{query_id}`, and the response of `GET <location>` for any
result location the coordinator may fetch this tick. -/
structure Tick where
  status : Except SfErr SfStatus
  fetch : String → Except SfErr ResultResp

/-- Terminal outcome of the polling loop of `async_query` (client.py lines
344-403): entries returned, a propagated `StarfishError`, the
`ASYNC_QUERY_FAILED` raised on a non-list result body (its rendered text
`"[ASYNC_QUERY_FAILED] Query completed but result format unexpected"` matches
none of the sniffed substrings, so the handler at line 391 re-raises it), or
`ASYNC_QUERY_TIMEOUT` carrying the query id and `max_attempts`. -/
inductive Outcome where
  | completed (es : List String)
  | raisedErr (e : SfErr)
  | unexpectedFormat (payload : String)
  | asyncTimeout (query_id : String) (max_attempts : Nat)
deriving Repr, DecidableEq

/-- Result of one iteration of the `for attempt in range(max_attempts)` body:
either `continue` to the next tick or leave the loop with an outcome. -/
inductive StepRes where
  | next
  | stop (o : Outcome)
deriving Repr, DecidableEq

/-- The canonical result endpoint `/async/query_result/{query_id}`, used both
as the default when the status payload lacks `location` (line 360) and as the
fallback result endpoint (line 373). -/
def defaultResultLoc (qid : String) : String := "/async/query_result/" ++ qid

/-- Lines 380-389: a list body completes the query; any other shape raises
`ASYNC_QUERY_FAILED`, which the line-391 handler re-raises (see `Outcome`). -/
def handleResult : ResultResp → StepRes
  | .entries es => .stop (.completed es)
  | .notList p => .stop (.unexpectedFormat p)

/-- One iteration of the polling loop body (client.py lines 351-397). -/
def stepTick (qid : String) (tick : Tick) : StepRes :=
  match tick.status with
  | .error e => if transientPoll e then .next else .stop (.raisedErr e)
  | .ok st =>
    if st.is_done.getD false then
      match tick.fetch (st.location.getD (defaultResultLoc qid)) with
      | .ok r => handleResult r
      | .error e =>
        if resultNotReady e then .next
        else
          match tick.fetch (defaultResultLoc qid) with
          | .ok r => handleResult r
          | .error e2 =>
            if resultNotReady e2 then .next
            else if transientPoll e2 then .next
            else .stop (.raisedErr e2)
    else .next

/-- The `for attempt in range(max_attempts)` loop, with the timeout raise
after it (lines 348-403).  Returns the outcome together with the number of
status checks performed. -/
def pollGo (qid : String) (ticks : Nat → Tick) (max_attempts : Nat) :
    Nat → Nat → Outcome × Nat
  | attempt, 0 => (.asyncTimeout qid max_attempts, attempt)
  | attempt, fuel + 1 =>
    match stepTick qid (ticks attempt) with
    | .stop o => (o, attempt + 1)
    | .next => pollGo qid ticks max_attempts (attempt + 1) fuel

/-- The polling phase of `async_query`: `poll_interval = 2`,
`max_attempts = timeout // poll_interval` (lines 345-346). -/
def async_query_poll (qid : String) (timeout : Nat) (ticks : Nat → Tick) :
    Outcome × Nat :=
  pollGo qid ticks (timeout / 2) 0 (timeout / 2)

theorem pollGo_count_le (qid : String) (ticks : Nat → Tick) (M : Nat) :
    ∀ fuel attempt, (pollGo qid ticks M attempt fuel).2 ≤ attempt + fuel := by
  intro fuel
  induction fuel with
  | zero => intro attempt; simp [pollGo]
  | succ f ih =>
      intro attempt
      simp only [pollGo]
      cases stepTick qid (ticks attempt) with
      | stop o =>
          show attempt + 1 ≤ attempt + (f + 1)
          omega
      | next =>
          show (pollGo qid ticks M (attempt + 1) f).2 ≤ attempt + (f + 1)
          have h := ih (attempt + 1)
          omega

theorem pollGo_never_done (qid : String) (ticks : Nat → Tick) (M : Nat)
    (h : ∀ n, stepTick qid (ticks n) = .next) :
    ∀ fuel attempt,
      pollGo qid ticks M attempt fuel = (.asyncTimeout qid M, attempt + fuel) := by
  intro fuel
  induction fuel with
  | zero => intro attempt; simp [pollGo]
  | succ f ih =>
      intro attempt
      simp only [pollGo, h attempt]
      rw [ih (attempt + 1)]
      congr 1
      omega

/-- C3: the polling loop performs at most `timeout / 2` status checks
(`poll_interval` is the fixed constant 2 seconds); against a backend that
never reports done it ends in `ASYNC_QUERY_TIMEOUT` carrying the query id and
the attempt count, after exactly `timeout / 2` attempts; with `timeout = 4`
that is at most 2 poll attempts. -/
theorem async_poll_deadline (qid : String) (timeout : Nat)
    (ticks : Nat → Tick) :
    (async_query_poll qid timeout ticks).2 ≤ timeout / 2
    ∧ ((∀ n, (ticks n).status = Except.ok ⟨some false, none⟩) →
        async_query_poll qid timeout ticks
          = (.asyncTimeout qid (timeout / 2), timeout / 2))
    ∧ ((∀ n, (ticks n).status = Except.ok ⟨some false, none⟩) →
        async_query_poll qid 4 ticks = (.asyncTimeout qid 2, 2)) := by
  have hstep : (∀ n, (ticks n).status = Except.ok ⟨some false, none⟩) →
      ∀ n, stepTick qid (ticks n) = .next := by
    intro h n
    simp [stepTick, h n, Option.getD]
  refine ⟨?_, ?_, ?_⟩
  · simpa using pollGo_count_le qid ticks (timeout / 2) (timeout / 2) 0
  · intro h
    simpa using pollGo_never_done qid ticks (timeout / 2) (hstep h)
      (timeout / 2) 0
  · intro h
    simpa using pollGo_never_done qid ticks 2 (hstep h) 2 0

/-- Witness for `async_poll_deadline`: a backend that always answers
`is_done=false` times the 4-second poll out after exactly 2 attempts. -/
theorem async_poll_deadline_witness :
    async_query_poll "q1" 4
        (fun _ => ⟨Except.ok ⟨some false, none⟩,
          fun _ => Except.error ⟨true, false, false, false, "nf"⟩⟩)
      = (.asyncTimeout "q1" 2, 2) := by
  exact (async_poll_deadline "q1" 4
    (fun _ => ⟨Except.ok ⟨some false, none⟩,
      fun _ => Except.error ⟨true, false, false, false, "nf"⟩⟩)).2.2
    (fun _ => rfl)

/-- A tick on which C2 fails as stated: status reports done, the result fetch
at the reported location fails with an error that is neither HTTP 400 nor
"not finished yet", and the canonical endpoint holds the entries. -/
def tickFallbackOk : Tick where
  status := Except.ok ⟨some true, some "/r/q1"⟩
  fetch := fun loc =>
    if loc = "/r/q1" then Except.error ⟨false, false, false, false, "boom"⟩
    else Except.ok (.entries ["e1"])

/-- C2 counterexample: a result fetch failing with an error that is not a
"not finished yet"/HTTP 400 signal does NOT terminate the invocation as
Failed — the coordinator falls back to the canonical endpoint and completes
with its entries.  (Conversely, on a 400-class failure the code `continue`s
immediately, without the fallback the claim describes.) -/
theorem result_fetch_other_error_not_failed :
    resultNotReady ⟨false, false, false, false, "boom"⟩ = false
    ∧ stepTick "q1" tickFallbackOk = .stop (.completed ["e1"]) := by
  exact ⟨rfl, rfl⟩

/-- C2 (amended): when status reports done and the result fetch at the
reported location fails with a 400/"not finished yet" signal, the coordinator
stays in Polling for the next tick with no fallback attempt (whatever the
canonical endpoint would return); on any other result-fetch error it falls
back to the canonical endpoint `/async/query_result/{query_id}`: a successful
list body there completes the invocation, a fallback failure matching any of
the transient signals (400, "not finished yet", 404, "not found") stays in
Polling, and any other fallback failure terminates the invocation as Failed
with that error propagated. -/
theorem result_fetch_error_handling (qid : String) (tick : Tick)
    (st : SfStatus) (hst : tick.status = Except.ok st)
    (hdone : st.is_done = some true) :
    (∀ e, tick.fetch (st.location.getD (defaultResultLoc qid))
          = Except.error e →
        resultNotReady e = true → stepTick qid tick = .next)
    ∧ (∀ e es, tick.fetch (st.location.getD (defaultResultLoc qid))
          = Except.error e →
        resultNotReady e = false →
        tick.fetch (defaultResultLoc qid) = Except.ok (.entries es) →
        stepTick qid tick = .stop (.completed es))
    ∧ (∀ e e2, tick.fetch (st.location.getD (defaultResultLoc qid))
          = Except.error e →
        resultNotReady e = false →
        tick.fetch (defaultResultLoc qid) = Except.error e2 →
        transientPoll e2 = true → stepTick qid tick = .next)
    ∧ (∀ e e2, tick.fetch (st.location.getD (defaultResultLoc qid))
          = Except.error e →
        resultNotReady e = false →
        tick.fetch (defaultResultLoc qid) = Except.error e2 →
        transientPoll e2 = false →
        stepTick qid tick = .stop (.raisedErr e2)) := by
  refine ⟨?_, ?_, ?_, ?_⟩
  · intro e hf hnr
    simp [stepTick, hst, hdone, hf, hnr]
  · intro e es hf hnr hfb
    simp [stepTick, hst, hdone, hf, hnr, hfb, handleResult]
  · intro e e2 hf hnr hfb htr
    by_cases hnr2 : resultNotReady e2 = true
    · simp [stepTick, hst, hdone, hf, hnr, hfb, hnr2]
    · simp only [Bool.not_eq_true] at hnr2
      simp [stepTick, hst, hdone, hf, hnr, hfb, hnr2, htr]
  · intro e e2 hf hnr hfb htr
    have hnr2 : resultNotReady e2 = false := by
      cases e2
      simp only [transientPoll, Bool.or_eq_false_iff] at htr
      simp [resultNotReady, htr.1.2, htr.2]
    simp [stepTick, hst, hdone, hf, hnr, hfb, hnr2, htr]

/-- Witness for `result_fetch_error_handling`: the fallback completes the
invocation on `tickFallbackOk`. -/
theorem result_fetch_error_handling_witness :
    stepTick "q1" tickFallbackOk = .stop (.completed ["e1"]) := by
  exact (result_fetch_error_handling "q1" tickFallbackOk
      ⟨some true, some "/r/q1"⟩ rfl rfl).2.1
    ⟨false, false, false, false, "boom"⟩ ["e1"] rfl rfl rfl

/-- C10: a status payload without `is_done` is read as not done — the
coordinator raises nothing and stays in Polling for the next tick; and when
`is_done` is true but the payload lacks `location`, results are fetched from
the default endpoint `/async/query_result/{query_id}`. -/
theorem status_payload_defaults (qid : String) (tick : Tick) (st : SfStatus) :
    (tick.status = Except.ok st → st.is_done = none →
      stepTick qid tick = .next)
    ∧ (∀ es, tick.status = Except.ok st → st.is_done = some true →
        st.location = none →
        tick.fetch (defaultResultLoc qid) = Except.ok (.entries es) →
        stepTick qid tick = .stop (.completed es)) := by
  constructor
  · intro hst hd
    simp [stepTick, hst, hd]
  · intro es hst hd hloc hf
    simp [stepTick, hst, hd, hloc, hf, handleResult]

/-- Witness for `status_payload_defaults`: a done status without a location
completes from the default endpoint. -/
theorem status_payload_defaults_witness :
    stepTick "q1"
        ⟨Except.ok ⟨some true, none⟩, fun _ => Except.ok (.entries ["e2"])⟩
      = .stop (.completed ["e2"]) := by
  exact (status_payload_defaults "q1"
      ⟨Except.ok ⟨some true, none⟩, fun _ => Except.ok (.entries ["e2"])⟩
      ⟨some true, none⟩).2 ["e2"] rfl rfl rfl rfl

end Starfish
